import Mathlib

/-!
Verification of the MindCare mental-health chatbot core against its
natural-language specification.  The definitions below are a shallow
embedding of the Python sources (`app.py`, `stress_detector.py`,
`sentiment_analyzer.py`, `data_handler.py`): text is a `List Char`,
floats are `ℚ`, dictionaries are association lists, and the SQLite
`conversations` table is a list of records.
-/

namespace MindCare

/-! ### Character and string helpers

Python `str.lower`, `str.strip`, whitespace classes and the `\b` word
boundary of the `re` module, specialised to the ASCII texts the pattern
tables use.
-/

/-- The apostrophe character (used inside several source patterns such as
the phrase can-not-sleep written with an apostrophe). -/
def aposC : Char := Char.ofNat 39

/-- Decode a pattern literal: the placeholder asterisk stands for an
apostrophe, every other character denotes itself. -/
def fixApos (s : String) : List Char := s.data.map (fun c => if c == '*' then aposC else c)

/-- Python whitespace class `\s` (ASCII part). -/
def pyWs (c : Char) : Bool :=
  c == ' ' || c == '\t' || c == '\n' || c == '\r' || c == '\x0b' || c == '\x0c'

/-- Python word-character class `\w` (ASCII part): letters, digits, underscore. -/
def isWordChar (c : Char) : Bool := c.isAlphanum || c == '_'

/-- `str.lower` on a single character (ASCII). -/
def lowerC (c : Char) : Char := c.toLower

/-- `str.lower` on a text. -/
def lowerL (s : List Char) : List Char := s.map lowerC

/-- `listStarts p s` is true when `p` is a prefix of `s` (character-wise). -/
def listStarts : List Char → List Char → Bool
  | [], _ => true
  | _ :: _, [] => false
  | a :: as, b :: bs => a == b && listStarts as bs

/-- Python substring containment `kw in text`. -/
def substrIn (kw text : List Char) : Bool :=
  (List.range (text.length + 1)).any (fun i => listStarts kw (text.drop i))

/-- Word-character test on an optional character; a string edge counts as
a non-word character, as in `re`. -/
def optWord : Option Char → Bool
  | Option.none => false
  | some c => isWordChar c

/-- Does the alternative `alt` of a pattern of shape word-boundary,
alternatives, word-boundary match `text` at offset `i`?  Mirrors
`re.search` semantics of `\b(...)\b` for literal alternatives. -/
def wbMatchAt (alt text : List Char) (i : Nat) : Bool :=
  listStarts alt (text.drop i)
    && (optWord (if i == 0 then Option.none else text.get? (i - 1)) != optWord alt.head?)
    && (optWord alt.getLast? != optWord (text.get? (i + alt.length)))

/-- `re.search` of a single boundary-delimited alternative over the text. -/
def wbSearch (alt text : List Char) : Bool :=
  (List.range (text.length + 1)).any (fun i => wbMatchAt alt text i)

/-- Match of one source pattern (a list of alternatives inside one
word-boundary group). -/
def patMatch (alts : List (List Char)) (text : List Char) : Bool :=
  alts.any (fun a => wbSearch a text)

/-- A category matches when any of its ordered patterns matches; the
source appends the category once and breaks, so only existence matters. -/
def catMatch (pats : List (List (List Char))) (text : List Char) : Bool :=
  pats.any (fun p => patMatch p text)

/-- Build the list of alternatives of one pattern from string literals. -/
def alts (l : List String) : List (List Char) := l.map fixApos

/-- Shared detection loop of `StressDetector`: lowercase the text, then
keep each category of the table whose pattern list matches. -/
def detectFrom (table : List (String × List (List (List Char)))) (text : List Char) :
    List String :=
  table.filterMap (fun cp => if catMatch cp.2 (lowerL text) then some cp.1 else Option.none)

/-! ### `MentalHealthChatbot.assess_urgency` (app.py) -/

/-- The five ordered urgency levels of the specification; the classifier
in `app.py` only ever produces the last four. -/
inductive UrgencyLevel where
  | none
  | low
  | medium
  | high
  | emergency
deriving DecidableEq

/-- `emergency_keywords` list of `assess_urgency`. -/
def emergency_keywords : List (List Char) :=
  alts ["suicide", "kill myself", "end it all", "no point", "hopeless",
        "harm myself", "want to die", "can*t go on", "giving up"]

/-- `high_stress_indicators` list of `assess_urgency`. -/
def high_stress_indicators : List (List Char) :=
  alts ["panic attack", "can*t breathe", "heart racing", "overwhelming",
        "breaking down", "falling apart", "can*t cope"]

/-- `MentalHealthChatbot.assess_urgency`.  The sentiment argument is the
compound value read with `sentiment.get`, the indicator argument is the
detected stress-signal list. -/
def assess_urgency (message : List Char) (compound : ℚ) (stress_indicators : List String) :
    UrgencyLevel :=
  let message_lower := lowerL message
  if emergency_keywords.any (fun k => substrIn k message_lower) then UrgencyLevel.emergency
  else if high_stress_indicators.any (fun k => substrIn k message_lower) then UrgencyLevel.high
  else if compound < -(7/10 : ℚ) ∨ 3 ≤ stress_indicators.length then UrgencyLevel.high
  else if compound < -(3/10 : ℚ) ∨ 1 ≤ stress_indicators.length then UrgencyLevel.medium
  else UrgencyLevel.low

/-! ### `StressDetector` (stress_detector.py)

Each table entry is a category name together with its ordered pattern
list; each pattern is the list of literal alternatives inside one
word-boundary group.
-/

/-- `StressDetector.stress_patterns`. -/
def stress_patterns : List (String × List (List (List Char))) :=
  [("work_stress",
     [alts ["work", "job", "boss", "deadline", "overtime", "meeting", "project", "workload"],
      alts ["too much work", "work pressure", "work stress", "job stress"]]),
   ("academic_stress",
     [alts ["exam", "test", "homework", "assignment", "grade", "study", "studying",
            "school", "university", "college"],
      alts ["academic pressure", "study stress", "exam anxiety"]]),
   ("financial_stress",
     [alts ["money", "debt", "bills", "rent", "mortgage", "financial", "budget",
            "broke", "poor"],
      alts ["financial stress", "money problems", "can*t afford"]]),
   ("relationship_stress",
     [alts ["relationship", "marriage", "divorce", "breakup", "family", "friend",
            "partner", "spouse"],
      alts ["relationship problems", "family issues", "conflict with"]]),
   ("health_stress",
     [alts ["sick", "illness", "disease", "doctor", "hospital", "medical", "health",
            "pain", "surgery"],
      alts ["health problems", "medical issues", "chronic pain"]]),
   ("social_stress",
     [alts ["social", "people", "friends", "party", "social media", "networking",
            "public speaking"],
      alts ["social anxiety", "afraid of people", "social pressure"]])]

/-- `StressDetector.physical_symptoms`. -/
def physical_symptoms : List (String × List (List (List Char))) :=
  [("sleep_issues",
     [alts ["can*t sleep", "insomnia", "sleepless", "tired", "exhausted", "fatigue",
            "no energy"],
      alts ["sleep problems", "sleeping too much", "wake up tired"]]),
   ("appetite_changes",
     [alts ["not hungry", "no appetite", "eating too much", "binge eating",
            "lost weight", "gained weight"],
      alts ["appetite changes", "stress eating", "comfort food"]]),
   ("physical_tension",
     [alts ["headache", "muscle tension", "back pain", "neck pain", "stomach ache",
            "nausea"],
      alts ["tight chest", "heart racing", "palpitations", "sweating", "trembling"]]),
   ("cognitive_symptoms",
     [alts ["can*t concentrate", "memory problems", "confused", "forgetful",
            "distracted"],
      alts ["brain fog", "can*t think", "overwhelmed", "racing thoughts"]])]

/-- `StressDetector.emotional_indicators`. -/
def emotional_indicators : List (String × List (List (List Char))) :=
  [("anxiety_markers",
     [alts ["anxious", "worried", "nervous", "panic", "fear", "scared", "terrified",
            "dread"],
      alts ["what if", "worst case", "catastrophic thinking", "overthinking"]]),
   ("depression_markers",
     [alts ["sad", "depressed", "hopeless", "empty", "worthless", "numb",
            "nothing matters"],
      alts ["don*t care", "giving up", "no point", "why bother"]]),
   ("anger_markers",
     [alts ["angry", "frustrated", "irritated", "furious", "rage", "mad", "annoyed"],
      alts ["can*t stand", "fed up", "had enough", "losing patience"]]),
   ("overwhelm_markers",
     [alts ["overwhelmed", "too much", "can*t handle", "breaking point", "at my limit"],
      alts ["everything is falling apart", "can*t keep up", "drowning"]])]

/-- `StressDetector.behavioral_changes`. -/
def behavioral_changes : List (String × List (List (List Char))) :=
  [("withdrawal",
     [alts ["isolating", "avoiding", "withdrawing", "staying home", "don*t want to see"],
      alts ["hiding away", "keeping to myself", "don*t go out"]]),
   ("procrastination",
     [alts ["procrastinating", "putting off", "avoiding", "can*t start", "delaying"],
      alts ["keep postponing", "making excuses", "running behind"]]),
   ("substance_use",
     [alts ["drinking", "alcohol", "smoking", "drugs", "medication", "pills"],
      alts ["need a drink", "self medicating", "using substances"]]),
   ("compulsive_behaviors",
     [alts ["can*t stop", "addicted", "compulsive", "obsessive", "checking constantly"],
      alts ["scrolling endlessly", "binge watching", "shopping therapy"]])]

/-- `StressDetector.crisis_indicators`. -/
def crisis_indicators : List (String × List (List (List Char))) :=
  [("suicidal_thoughts",
     [alts ["suicide", "kill myself", "end it all", "want to die", "better off dead"],
      alts ["no reason to live", "can*t go on", "thinking about ending"]]),
   ("self_harm",
     [alts ["hurt myself", "harm myself", "cut myself", "self injury", "self harm"],
      alts ["want to hurt myself", "thinking about hurting"]]),
   ("severe_hopelessness",
     [alts ["no hope", "hopeless", "pointless", "nothing will change", "stuck forever"],
      alts ["no way out", "trapped", "nothing helps", "given up completely"]])]

/-- `StressDetector.positive_coping`. -/
def positive_coping : List (String × List (List (List Char))) :=
  [("seeking_help",
     [alts ["therapy", "counseling", "therapist", "psychologist", "support group"],
      alts ["talking to someone", "getting help", "reached out"]]),
   ("self_care",
     [alts ["exercise", "meditation", "yoga", "relaxation", "deep breathing",
            "mindfulness"],
      alts ["taking care of myself", "self care", "healthy habits"]]),
   ("problem_solving",
     [alts ["making a plan", "taking steps", "working on it", "finding solutions"],
      alts ["trying to fix", "addressing the issue", "taking action"]])]

/-- `StressDetector.detect_stress_signals`: the merged dictionary of the
four non-crisis tables, scanned in insertion order. -/
def detect_stress_signals (text : List Char) : List String :=
  if text = [] then []
  else detectFrom (stress_patterns ++ physical_symptoms ++ emotional_indicators ++
    behavioral_changes) text

/-- `StressDetector.detect_crisis_indicators`. -/
def detect_crisis_indicators (text : List Char) : List String :=
  detectFrom crisis_indicators text

/-- `StressDetector.detect_positive_coping`. -/
def detect_positive_coping (text : List Char) : List String :=
  detectFrom positive_coping text

/-- The five discrete stress levels of `assess_stress_level`. -/
inductive StressLevel where
  | critical
  | high
  | moderate
  | mild
  | low
deriving DecidableEq

/-- The numeric stress score of `assess_stress_level`: stress signals count
once, crisis signals are weighted by three, positive-coping signals subtract
one half each. -/
def stress_score_fn (s c k : ℕ) : ℚ := (s : ℚ) + (c : ℚ) * 3 + (k : ℚ) * (-(1/2))

/-- Result record of `StressDetector.assess_stress_level`
(the recommendation strings are presentation content and are omitted). -/
structure StressAssessment where
  stress_level : StressLevel
  stress_score : ℚ
  stress_signals : List String
  crisis_signals : List String
  coping_signals : List String
  signal_count : ℕ
deriving DecidableEq

/-- `StressDetector.assess_stress_level`. -/
def assess_stress_level (text : List Char) : StressAssessment :=
  let stress_signals := detect_stress_signals text
  let crisis_signals := detect_crisis_indicators text
  let coping_signals := detect_positive_coping text
  let total_score := stress_score_fn stress_signals.length crisis_signals.length
    coping_signals.length
  let stress_level :=
    if crisis_signals ≠ [] ∨ (8 : ℚ) ≤ total_score then StressLevel.critical
    else if (5 : ℚ) ≤ total_score then StressLevel.high
    else if (3 : ℚ) ≤ total_score then StressLevel.moderate
    else if (1 : ℚ) ≤ total_score then StressLevel.mild
    else StressLevel.low
  ⟨stress_level, total_score, stress_signals, crisis_signals, coping_signals,
   stress_signals.length⟩

/-- The concrete input of claim C4. -/
def c4_input : List Char := fixApos "I*m a bit tired but okay"

/-! ### `SentimentAnalyzer` (sentiment_analyzer.py)

The VADER compound value and the TextBlob polarity are outputs of
external libraries; `analyze_compound` takes them as parameters, each
ranging over the documented interval `[-1, 1]`.  The keyword scorer and
the preprocessing are translated from the source.
-/

/-- Collapse every whitespace run to a single space
(`re.sub` of one-or-more-whitespace with a space). -/
def collapse_ws : List Char → List Char
  | [] => []
  | [c] => [if pyWs c then ' ' else c]
  | c1 :: c2 :: rest =>
    if pyWs c1 && pyWs c2 then collapse_ws (c2 :: rest)
    else (if pyWs c1 then ' ' else c1) :: collapse_ws (c2 :: rest)

/-- Python `str.strip`. -/
def pyStrip (l : List Char) : List Char :=
  ((l.dropWhile pyWs).reverse.dropWhile pyWs).reverse

/-- The negation words rewritten by `preprocess_text`, in the order the
alternation tries them. -/
def negation_words : List (List Char) :=
  ["not", "no", "never", "nothing", "nobody", "nowhere", "neither", "nor",
   "none"].map String.data

/-- Try to match the negation pattern (word boundary, negation word, then
at least one whitespace character) at the head of `s`; on success return
the remainder after the greedily consumed whitespace. -/
def try_neg (s : List Char) : Option (List Char) :=
  negation_words.findSome? (fun w =>
    if listStarts w s then
      match s.drop w.length with
      | [] => Option.none
      | c :: rest => if pyWs c then some (rest.dropWhile pyWs) else Option.none
    else Option.none)

/-- Fuel-indexed scan of the negation rewrite of `preprocess_text`: each
match of a negation word followed by whitespace is replaced by the fused
token prefix.  The Boolean argument tells whether the previous character
of the original text was a word character (the word boundary test). -/
def neg_rewrite_fuel : ℕ → Bool → List Char → List Char
  | 0, _, s => s
  | _ + 1, _, [] => []
  | fuel + 1, prevWord, c :: rest =>
    match (if prevWord then Option.none else try_neg (c :: rest)) with
    | some rest2 => "not_".data ++ neg_rewrite_fuel fuel false rest2
    | Option.none => c :: neg_rewrite_fuel fuel (isWordChar c) rest

/-- The negation rewrite (`re.sub` of the negation pattern with the fused
prefix); the text length is enough fuel since every step consumes at
least one character. -/
def neg_rewrite (s : List Char) : List Char := neg_rewrite_fuel s.length false s

/-- `SentimentAnalyzer.preprocess_text`: lowercase, collapse whitespace,
strip, then rewrite negations. -/
def preprocess_text (text : List Char) : List Char :=
  neg_rewrite (pyStrip (collapse_ws (lowerL text)))

/-- Python `str.split()` helper: accumulate the current word (reversed)
while scanning. -/
def words_aux : List Char → List Char → List (List Char)
  | acc, [] => if acc = [] then [] else [acc.reverse]
  | acc, c :: rest =>
    if pyWs c then
      if acc = [] then words_aux [] rest else acc.reverse :: words_aux [] rest
    else words_aux (c :: acc) rest

/-- Python `str.split()`: whitespace-delimited words, empties dropped. -/
def split_words (s : List Char) : List (List Char) := words_aux [] s

/-- `SentimentAnalyzer.mental_health_keywords`: keyword, signed weight. -/
def mental_health_keywords : List (List Char × ℚ) :=
  [("anxiety".data, -0.8), ("anxious".data, -0.7), ("worried".data, -0.6),
   ("stress".data, -0.7), ("stressed".data, -0.8), ("depression".data, -0.9),
   ("depressed".data, -0.8), ("sad".data, -0.6), ("overwhelmed".data, -0.8),
   ("hopeless".data, -0.9), ("exhausted".data, -0.7), ("tired".data, -0.5),
   ("burnout".data, -0.8), ("panic".data, -0.8), ("fear".data, -0.7),
   ("afraid".data, -0.7), ("lonely".data, -0.7), ("isolated".data, -0.7),
   ("worthless".data, -0.9), ("empty".data, -0.8), ("numb".data, -0.7),
   ("angry".data, -0.6), ("frustrated".data, -0.6), ("irritated".data, -0.5),
   ("happy".data, 0.7), ("joy".data, 0.8), ("excited".data, 0.7),
   ("grateful".data, 0.8), ("peaceful".data, 0.7), ("calm".data, 0.6),
   ("relaxed".data, 0.6), ("confident".data, 0.7), ("hopeful".data, 0.8),
   ("optimistic".data, 0.8), ("energetic".data, 0.7), ("motivated".data, 0.7)]

/-- `SentimentAnalyzer.intensity_modifiers`: modifier token, multiplier.
The two-word entries can never equal a single preceding token and are
kept only for faithfulness. -/
def intensity_modifiers : List (List Char × ℚ) :=
  [("very".data, 1.3), ("extremely".data, 1.5), ("really".data, 1.2),
   ("quite".data, 1.1), ("somewhat".data, 0.8), ("slightly".data, 0.7),
   ("a bit".data, 0.7), ("kind of".data, 0.8), ("sort of".data, 0.8)]

/-- Weight lookup in the keyword table. -/
def kw_weight (w : List Char) : Option ℚ :=
  (mental_health_keywords.find? (fun p => p.1 == w)).map (fun p => p.2)

/-- Multiplier lookup in the modifier table. -/
def modifier_mult (w : List Char) : Option ℚ :=
  (intensity_modifiers.find? (fun p => p.1 == w)).map (fun p => p.2)

/-- The per-keyword contributions of
`SentimentAnalyzer.analyze_mental_health_keywords`: a matched keyword
contributes its weight, scaled by the modifier multiplier when the
immediately preceding token is a known modifier. -/
def mh_contribs : Option (List Char) → List (List Char) → List ℚ
  | _, [] => []
  | prev, w :: ws =>
    (match kw_weight w with
     | some sc =>
       (match prev with
        | some pw =>
          (match modifier_mult pw with
           | some m => [sc * m]
           | Option.none => [sc])
        | Option.none => [sc])
     | Option.none => []) ++ mh_contribs (some w) ws

/-- `SentimentAnalyzer.analyze_mental_health_keywords`: the mean of the
contributions, `0` when no keyword matched. -/
def analyze_mental_health_keywords (text : List Char) : ℚ :=
  let cs := mh_contribs Option.none (split_words text)
  if cs.length = 0 then 0 else cs.sum / (cs.length : ℚ)

/-- The combined compound value of `SentimentAnalyzer.analyze`: blank
input short-circuits to the neutral zero result; otherwise four tenths
VADER compound plus three tenths TextBlob polarity plus three tenths
domain keyword score of the preprocessed text. -/
def analyze_compound (vader_compound textblob_polarity : ℚ) (text : List Char) : ℚ :=
  if text.all pyWs then 0
  else vader_compound * 0.4 + textblob_polarity * 0.3
    + analyze_mental_health_keywords (preprocess_text text) * 0.3

/-! ### `MentalHealthChatbot.update_user_profile` (app.py) -/

/-- The per-session user profile held in the Streamlit session state
(the last-check-in timestamp is presentation data and is omitted). -/
structure UserProfile where
  stress_level : ℚ
  anxiety_indicators : List String
  burnout_risk : String
  conversation_count : ℕ
deriving DecidableEq

/-- The profile installed by `init_session_state`. -/
def initial_profile : UserProfile := ⟨0, [], "low", 0⟩

/-- `MentalHealthChatbot.assess_burnout_risk`, read on the already
updated profile fields. -/
def assess_burnout_risk (p : UserProfile) : String :=
  if 7 < p.stress_level ∧ 5 < p.anxiety_indicators.length then "high"
  else if 5 < p.stress_level ∧ 3 < p.anxiety_indicators.length then "medium"
  else "low"

/-- `MentalHealthChatbot.update_user_profile`: blend the clamped
per-message stress contribution into the rolling stress level, extend the
indicator list and keep its last ten entries, then recompute the burnout
risk and bump the conversation counter. -/
def update_user_profile (p : UserProfile) (compound : ℚ) (stress_indicators : List String) :
    UserProfile :=
  let new_stress := max 0 (min 10 (5 - compound * 5))
  let stress_level := p.stress_level * (7/10) + new_stress * (3/10)
  let anxiety_indicators :=
    if stress_indicators = [] then p.anxiety_indicators
    else (p.anxiety_indicators ++ stress_indicators).drop
      ((p.anxiety_indicators ++ stress_indicators).length - 10)
  let updated : UserProfile := ⟨stress_level, anxiety_indicators, p.burnout_risk,
    p.conversation_count⟩
  ⟨stress_level, anxiety_indicators, assess_burnout_risk updated,
   p.conversation_count + 1⟩

/-- A whole conversation: fold `update_user_profile` over the per-message
analysis outputs (sentiment compound value and detected indicators),
starting from the initial profile. -/
def run_profile (updates : List (ℚ × List String)) : UserProfile :=
  updates.foldl (fun p u => update_user_profile p u.1 u.2) initial_profile

/-! ### `DataHandler.cleanup_old_data` (data_handler.py)

The `conversations` table is a list of records; timestamps are rational
numbers measured in days, so the `timedelta` cutoffs are plain
subtractions.  The single sweep takes the current time once, as the
source takes `datetime.now()` at the top of the call.
-/

/-- A row of the `conversations` table. -/
structure ConversationRecord where
  session_hash : String
  timestamp : ℚ
  sentiment_score : ℚ
  stress_level : ℚ
  urgency_level : String
  emotions : String
  risk_indicators : String
  encrypted_content : Option String
deriving DecidableEq

/-- `DataHandler.data_retention_days`. -/
def data_retention_days : ℚ := 30

/-- `DataHandler.anonymize_after_days`. -/
def anonymize_after_days : ℚ := 7

/-- The DELETE step keeps a record iff its timestamp is not strictly
older than the retention cutoff. -/
def record_kept (now : ℚ) (r : ConversationRecord) : Bool :=
  ! decide (r.timestamp < now - data_retention_days)

/-- The UPDATE step clears the encrypted content of records older than
the anonymization cutoff whose content is not already null. -/
def record_anonymized (now : ℚ) (r : ConversationRecord) : ConversationRecord :=
  if r.timestamp < now - anonymize_after_days ∧ r.encrypted_content ≠ Option.none then
    { r with encrypted_content := Option.none }
  else r

/-- `DataHandler.cleanup_old_data` on the `conversations` table: delete
records past retention, then null out the encrypted content of records
past the anonymization age. -/
def cleanup_old_data (now : ℚ) (conversations : List ConversationRecord) :
    List ConversationRecord :=
  (conversations.filter (record_kept now)).map (record_anonymized now)

/-- The concrete input of the counterexample to claim C3. -/
def c3_input : List Char := "extremely hopeless".data

/-! ### Theorems -/

/-- One `update_user_profile` step keeps the stress level inside `[0, 10]`. -/
theorem update_stress_level_bounds (p : UserProfile) (compound : ℚ)
    (stress_indicators : List String) (h0 : 0 ≤ p.stress_level) (h10 : p.stress_level ≤ 10) :
    0 ≤ (update_user_profile p compound stress_indicators).stress_level ∧
      (update_user_profile p compound stress_indicators).stress_level ≤ 10 := by
  have hn0 : (0 : ℚ) ≤ max 0 (min 10 (5 - compound * 5)) := le_max_left 0 _
  have hn10 : max 0 (min 10 (5 - compound * 5)) ≤ 10 :=
    max_le (by norm_num) (min_le_left _ _)
  constructor
  · show 0 ≤ p.stress_level * (7/10) + max 0 (min 10 (5 - compound * 5)) * (3/10)
    nlinarith
  · show p.stress_level * (7/10) + max 0 (min 10 (5 - compound * 5)) * (3/10) ≤ 10
    nlinarith

/-- The `[0, 10]` stress bound is preserved along any fold of updates. -/
theorem run_profile_aux (updates : List (ℚ × List String)) :
    ∀ p : UserProfile, 0 ≤ p.stress_level → p.stress_level ≤ 10 →
      0 ≤ (updates.foldl (fun p u => update_user_profile p u.1 u.2) p).stress_level ∧
      (updates.foldl (fun p u => update_user_profile p u.1 u.2) p).stress_level ≤ 10 := by
  induction updates with
  | nil => intro p h0 h10; exact ⟨h0, h10⟩
  | cons u us ih =>
    intro p h0 h10
    have hs := update_stress_level_bounds p u.1 u.2 h0 h10
    exact ih (update_user_profile p u.1 u.2) hs.1 hs.2

/-- C6: starting from the initial profile (stress level 0), after any
sequence of `update_user_profile` calls — for any sentiment compound
values, however extreme — the stored stress level lies in `[0, 10]`:
the per-message contribution is clamped to `[0, 10]` and the smoothing
blend of seven tenths old plus three tenths new preserves the interval. -/
theorem claim_C6 (updates : List (ℚ × List String)) :
    0 ≤ (run_profile updates).stress_level ∧ (run_profile updates).stress_level ≤ 10 :=
  run_profile_aux updates initial_profile (by norm_num [initial_profile])
    (by norm_num [initial_profile])

/-- C7: the recent-indicator list never exceeds capacity 10, and eviction
is FIFO: whenever a call appends a non-empty batch of new indicators, the
retained entries are exactly the last ten of the old list concatenated
with the new batch. -/
theorem claim_C7 (p : UserProfile) (compound : ℚ) (stress_indicators : List String)
    (h : p.anxiety_indicators.length ≤ 10) :
    (update_user_profile p compound stress_indicators).anxiety_indicators.length ≤ 10 ∧
    (stress_indicators ≠ [] →
      (update_user_profile p compound stress_indicators).anxiety_indicators =
        (p.anxiety_indicators ++ stress_indicators).drop
          ((p.anxiety_indicators ++ stress_indicators).length - 10)) := by
  have hai : (update_user_profile p compound stress_indicators).anxiety_indicators =
      if stress_indicators = [] then p.anxiety_indicators
      else (p.anxiety_indicators ++ stress_indicators).drop
        ((p.anxiety_indicators ++ stress_indicators).length - 10) := rfl
  by_cases hs : stress_indicators = []
  · rw [hai, if_pos hs]
    exact ⟨h, fun hne => absurd hs hne⟩
  · rw [hai, if_neg hs]
    refine ⟨?_, fun _ => rfl⟩
    rw [List.length_drop]
    omega

/-- Witness for C7: a full list of ten indicators plus one new one keeps
exactly the last ten, dropping the oldest entry. -/
theorem claim_C7_witness :
    (["a","b","c","d","e","f","g","h","i","j"] : List String).length ≤ 10 ∧
    (update_user_profile ⟨5, ["a","b","c","d","e","f","g","h","i","j"], "low", 3⟩ 0
        ["work_stress"]).anxiety_indicators.length ≤ 10 ∧
    (update_user_profile ⟨5, ["a","b","c","d","e","f","g","h","i","j"], "low", 3⟩ 0
        ["work_stress"]).anxiety_indicators =
      ((["a","b","c","d","e","f","g","h","i","j"] : List String) ++ ["work_stress"]).drop
        (((["a","b","c","d","e","f","g","h","i","j"] : List String) ++ ["work_stress"]).length
          - 10) :=
  ⟨by decide,
   (claim_C7 ⟨5, ["a","b","c","d","e","f","g","h","i","j"], "low", 3⟩ 0 ["work_stress"]
     (by decide)).1,
   (claim_C7 ⟨5, ["a","b","c","d","e","f","g","h","i","j"], "low", 3⟩ 0 ["work_stress"]
     (by decide)).2 (by decide)⟩

/-- C1: for every input text, sentiment compound value and stress-indicator
list, `assess_urgency` returns exactly one of the five ordered urgency
levels, and whenever the lowercased message contains an emergency keyword
the result is `emergency` irrespective of the sentiment value and the
number of stress indicators (the emergency check has strict priority). -/
theorem claim_C1 (message : List Char) (compound : ℚ) (stress_indicators : List String) :
    assess_urgency message compound stress_indicators ∈
      [UrgencyLevel.none, UrgencyLevel.low, UrgencyLevel.medium,
       UrgencyLevel.high, UrgencyLevel.emergency] ∧
    (emergency_keywords.any (fun k => substrIn k (lowerL message)) = true →
      assess_urgency message compound stress_indicators = UrgencyLevel.emergency) := by
  constructor
  · cases assess_urgency message compound stress_indicators <;> simp
  · intro h
    simp [assess_urgency, h]

/-- Witness for C1: the message I-want-to-end-it-all contains the
emergency keyword end-it-all, and even with a fully positive sentiment
compound of 1 and no stress indicators the classifier says `emergency`. -/
theorem claim_C1_witness :
    emergency_keywords.any (fun k => substrIn k (lowerL ("I want to end it all".data))) = true ∧
    assess_urgency ("I want to end it all".data) 1 [] = UrgencyLevel.emergency :=
  ⟨by decide, (claim_C1 ("I want to end it all".data) 1 []).2 (by decide)⟩

/-- C10: emergency keyword matching is raw substring containment on the
lowercased message (no word or phrase boundaries), and the keyword list
goes beyond explicit self-harm language: any message whose lowercased
text contains the substring hopeless or the substring no-point is
classified `emergency`, whatever the sentiment and indicator inputs. -/
theorem claim_C10 (message : List Char) (compound : ℚ) (stress_indicators : List String)
    (h : substrIn ("hopeless".data) (lowerL message) = true ∨
         substrIn ("no point".data) (lowerL message) = true) :
    assess_urgency message compound stress_indicators = UrgencyLevel.emergency := by
  have hany : emergency_keywords.any (fun k => substrIn k (lowerL message)) = true := by
    rw [List.any_eq_true]
    rcases h with h | h
    · exact ⟨"hopeless".data, by decide, h⟩
    · exact ⟨"no point".data, by decide, h⟩
  simp [assess_urgency, hany]

/-- Witness for C10: the message I-am-not-hopeless-anymore is a negated,
embedded use of hopeless, yet it is classified `emergency`. -/
theorem claim_C10_witness :
    substrIn ("hopeless".data) (lowerL (fixApos "I*m not hopeless anymore")) = true ∧
    assess_urgency (fixApos "I*m not hopeless anymore") 1 [] = UrgencyLevel.emergency :=
  ⟨by decide, claim_C10 (fixApos "I*m not hopeless anymore") 1 [] (Or.inl (by decide))⟩

/-- C2: for every input text, `assess_stress_level` scores the text as
stress-signal count plus three per crisis signal minus one half per
positive-coping signal, and assigns the discrete level highest severity
first: any crisis signal, or a score of at least 8, yields `critical`
(so one crisis marker forces `critical` whatever the numeric score);
otherwise at least 5 yields `high`, at least 3 `moderate`, at least 1
`mild`, and `low` below that. -/
theorem claim_C2 (text : List Char) :
    (assess_stress_level text).stress_score =
      ((detect_stress_signals text).length : ℚ)
        + 3 * ((detect_crisis_indicators text).length : ℚ)
        - (1/2) * ((detect_positive_coping text).length : ℚ) ∧
    (assess_stress_level text).stress_level =
      (if detect_crisis_indicators text ≠ [] ∨
          (8 : ℚ) ≤ (assess_stress_level text).stress_score then StressLevel.critical
       else if (5 : ℚ) ≤ (assess_stress_level text).stress_score then StressLevel.high
       else if (3 : ℚ) ≤ (assess_stress_level text).stress_score then StressLevel.moderate
       else if (1 : ℚ) ≤ (assess_stress_level text).stress_score then StressLevel.mild
       else StressLevel.low) := by
  constructor
  · simp only [assess_stress_level, stress_score_fn]
    ring
  · rfl

/-- Counterexample to C4 as stated: on the input I-am-a-bit-tired-but-okay
the word tired matches the sleep-issues pattern, the score is 1, and the
assessed stress level is `mild`, not `low`. -/
theorem claim_C4_counterexample :
    ¬ ((assess_stress_level c4_input).stress_level = StressLevel.low ∧
       (assess_stress_level c4_input).crisis_signals = []) := by
  have h1 : detect_stress_signals c4_input = ["sleep_issues"] := by decide
  have h2 : detect_crisis_indicators c4_input = [] := by decide
  have h3 : detect_positive_coping c4_input = [] := by decide
  simp [assess_stress_level, h1, h2, h3, stress_score_fn]

/-- C4 (amended): on the input I-am-a-bit-tired-but-okay,
`assess_stress_level` returns stress level `mild` and an empty
crisis-signal list. -/
theorem claim_C4 :
    (assess_stress_level c4_input).stress_level = StressLevel.mild ∧
    (assess_stress_level c4_input).crisis_signals = [] := by
  have h1 : detect_stress_signals c4_input = ["sleep_issues"] := by decide
  have h2 : detect_crisis_indicators c4_input = [] := by decide
  have h3 : detect_positive_coping c4_input = [] := by decide
  simp [assess_stress_level, h1, h2, h3, stress_score_fn]

/-- C5: holding the non-crisis stress-signal count and the coping-signal
count fixed, the numeric stress score of `assess_stress_level` is
monotonically non-decreasing in the number of crisis-category matches. -/
theorem claim_C5 (s k m n : ℕ) (h : m ≤ n) :
    stress_score_fn s m k ≤ stress_score_fn s n k := by
  have hc : (m : ℚ) ≤ (n : ℚ) := Nat.cast_le.mpr h
  simp only [stress_score_fn]
  linarith

/-- Witness for C5 at stress count 2, coping count 1, crisis counts 1 ≤ 3. -/
theorem claim_C5_witness :
    1 ≤ 3 ∧ stress_score_fn 2 1 1 ≤ stress_score_fn 2 3 1 :=
  ⟨by decide, claim_C5 2 1 1 3 (by decide)⟩

/-- Every weight of the keyword table lies in `[-0.9, 0.8]`. -/
theorem kw_weight_bounds {w : List Char} {sc : ℚ} (h : kw_weight w = some sc) :
    -(9/10) ≤ sc ∧ sc ≤ 8/10 := by
  have hall : ∀ q ∈ mental_health_keywords, -(9/10 : ℚ) ≤ q.2 ∧ q.2 ≤ 8/10 := by
    intro q hq
    fin_cases hq <;> norm_num
  unfold kw_weight at h
  cases hf : mental_health_keywords.find? (fun p => p.1 == w) with
  | none => rw [hf] at h; simp at h
  | some p =>
    rw [hf] at h
    simp at h
    exact h ▸ hall p (List.mem_of_find?_eq_some hf)

/-- Every multiplier of the modifier table lies in `[0.7, 1.5]`. -/
theorem modifier_mult_bounds {w : List Char} {m : ℚ} (h : modifier_mult w = some m) :
    7/10 ≤ m ∧ m ≤ 3/2 := by
  have hall : ∀ q ∈ intensity_modifiers, (7/10 : ℚ) ≤ q.2 ∧ q.2 ≤ 3/2 := by
    intro q hq
    fin_cases hq <;> norm_num
  unfold modifier_mult at h
  cases hf : intensity_modifiers.find? (fun p => p.1 == w) with
  | none => rw [hf] at h; simp at h
  | some p =>
    rw [hf] at h
    simp at h
    exact h ▸ hall p (List.mem_of_find?_eq_some hf)

/-- A weight in `[-0.9, 0.8]` scaled by a multiplier in `[0.7, 1.5]`
stays in `[-1.35, 1.2]`. -/
theorem weight_mul_bounds {sc m : ℚ} (h1 : -(9/10) ≤ sc) (h2 : sc ≤ 8/10)
    (h3 : 7/10 ≤ m) (h4 : m ≤ 3/2) : -(27/20) ≤ sc * m ∧ sc * m ≤ 6/5 := by
  constructor <;> nlinarith

/-- Every per-keyword contribution lies in `[-1.35, 1.2]`. -/
theorem mh_contribs_bounds :
    ∀ (ws : List (List Char)) (prev : Option (List Char)) (x : ℚ),
      x ∈ mh_contribs prev ws → -(27/20) ≤ x ∧ x ≤ 6/5 := by
  intro ws
  induction ws with
  | nil => intro prev x hx; simp [mh_contribs] at hx
  | cons w tl ih =>
    intro prev x hx
    simp only [mh_contribs] at hx
    rw [List.mem_append] at hx
    rcases hx with hx | hx
    · cases hk : kw_weight w with
      | none => simp [hk] at hx
      | some sc =>
        have hsc := kw_weight_bounds hk
        cases prev with
        | none =>
          simp [hk] at hx
          subst hx
          constructor <;> linarith [hsc.1, hsc.2]
        | some pw =>
          cases hm : modifier_mult pw with
          | none =>
            simp [hk, hm] at hx
            subst hx
            constructor <;> linarith [hsc.1, hsc.2]
          | some m =>
            simp [hk, hm] at hx
            subst hx
            have hmm := modifier_mult_bounds hm
            exact weight_mul_bounds hsc.1 hsc.2 hmm.1 hmm.2
    · exact ih (some w) x hx

/-- A list with all elements in `[a, b]` has its sum between `a` and `b`
times its length. -/
theorem sum_bounds_of_forall :
    ∀ (l : List ℚ) (a b : ℚ), (∀ x ∈ l, a ≤ x ∧ x ≤ b) →
      a * l.length ≤ l.sum ∧ l.sum ≤ b * l.length := by
  intro l a b
  induction l with
  | nil => intro _; simp
  | cons x xs ih =>
    intro h
    have hx := h x (List.mem_cons_self x xs)
    have hxs := ih (fun y hy => h y (List.mem_cons_of_mem x hy))
    simp only [List.sum_cons, List.length_cons]
    push_cast
    constructor <;> nlinarith [hx.1, hx.2, hxs.1, hxs.2]

/-- The domain keyword score always lies in `[-1.35, 1.2]`. -/
theorem mh_score_bounds (text : List Char) :
    -(27/20) ≤ analyze_mental_health_keywords text ∧
      analyze_mental_health_keywords text ≤ 6/5 := by
  unfold analyze_mental_health_keywords
  by_cases hl : (mh_contribs Option.none (split_words text)).length = 0
  · simp [hl]
    norm_num
  · rw [if_neg hl]
    have hlen : (0 : ℚ) < ((mh_contribs Option.none (split_words text)).length : ℚ) := by
      have := Nat.pos_of_ne_zero hl
      exact_mod_cast this
    have hs := sum_bounds_of_forall (mh_contribs Option.none (split_words text))
      (-(27/20)) (6/5) (fun x hx => mh_contribs_bounds (split_words text) Option.none x hx)
    constructor
    · rw [le_div_iff₀ hlen]
      exact hs.1
    · rw [div_le_iff₀ hlen]
      linarith [hs.2]

/-- C3 (amended): with the external general polarity and lexical polarity
each ranging over their documented interval `[-1, 1]`, the combined
compound value lies in `[-1.105, 1.06]` for every input text; the claimed
interval `[-1, 1]` is exceeded because one keyword contribution can reach
`-0.9 × 1.5 = -1.35`. -/
theorem claim_C3 (v t : ℚ) (text : List Char)
    (hv1 : -1 ≤ v) (hv2 : v ≤ 1) (ht1 : -1 ≤ t) (ht2 : t ≤ 1) :
    -(221/200) ≤ analyze_compound v t text ∧ analyze_compound v t text ≤ 53/50 := by
  unfold analyze_compound
  by_cases hb : (text.all pyWs) = true
  · simp [hb]
    norm_num
  · simp only [hb, Bool.false_eq_true, if_false]
    have hm := mh_score_bounds (preprocess_text text)
    constructor <;> nlinarith [hm.1, hm.2]

/-- Counterexample to C3 as stated: on "extremely hopeless" the single
keyword contribution is `-0.9 × 1.5 = -1.35`, so with both external
polarity inputs at their documented extreme `-1` the combined compound
value is `-1.105`, outside `[-1, 1]`. -/
theorem claim_C3_counterexample : analyze_compound (-1) (-1) c3_input < -1 := by
  have hw : split_words (preprocess_text c3_input) = ["extremely".data, "hopeless".data] := by
    decide
  have hk1 : kw_weight ("extremely".data) = Option.none := by decide
  have hk2 : kw_weight ("hopeless".data) = some (-0.9 : ℚ) := rfl
  have hmo : modifier_mult ("extremely".data) = some (1.5 : ℚ) := rfl
  have hcs : mh_contribs Option.none (split_words (preprocess_text c3_input)) =
      [(-0.9 : ℚ) * 1.5] := by
    rw [hw]
    simp [mh_contribs, hk1, hk2, hmo]
  have hmh : analyze_mental_health_keywords (preprocess_text c3_input) = (-0.9 : ℚ) * 1.5 := by
    simp only [analyze_mental_health_keywords, hcs]
    norm_num
  have hb : (c3_input.all pyWs) = false := by decide
  simp only [analyze_compound, hb, Bool.false_eq_true, if_false, hmh]
  norm_num

/-- Witness for C3 at polarity inputs 0 and the text calm. -/
theorem claim_C3_witness :
    ((-1 : ℚ) ≤ 0 ∧ (0 : ℚ) ≤ 1) ∧
    (-(221/200) ≤ analyze_compound 0 0 ("calm".data) ∧
      analyze_compound 0 0 ("calm".data) ≤ 53/50) :=
  ⟨⟨by norm_num, by norm_num⟩,
   claim_C3 0 0 ("calm".data) (by norm_num) (by norm_num) (by norm_num) (by norm_num)⟩

/-- The anonymization step never changes the timestamp of a record. -/
theorem record_anonymized_timestamp (now : ℚ) (r : ConversationRecord) :
    (record_anonymized now r).timestamp = r.timestamp := by
  unfold record_anonymized
  split <;> rfl

/-- Clearing an already-null encrypted-content field is a no-op, so the
anonymization step is idempotent on a record. -/
theorem record_anonymized_idem (now : ℚ) (r : ConversationRecord) :
    record_anonymized now (record_anonymized now r) = record_anonymized now r := by
  by_cases h : r.timestamp < now - anonymize_after_days ∧ r.encrypted_content ≠ Option.none
  · simp [record_anonymized, h]
  · simp [record_anonymized, h]

/-- Anonymization does not change whether a record survives the DELETE. -/
theorem record_kept_anonymized (now : ℚ) (r : ConversationRecord) :
    record_kept now (record_anonymized now r) = record_kept now r := by
  unfold record_kept
  rw [record_anonymized_timestamp]

/-- The DELETE filter commutes with the anonymization map. -/
theorem filter_map_swap (now : ℚ) :
    ∀ l : List ConversationRecord,
      (l.map (record_anonymized now)).filter (record_kept now) =
        (l.filter (record_kept now)).map (record_anonymized now) := by
  intro l
  induction l with
  | nil => rfl
  | cons r tl ih =>
    simp only [List.map_cons, List.filter_cons, record_kept_anonymized]
    cases h : record_kept now r <;> simp [h, ih]

/-- C9: at a fixed current time, the retention and anonymization sweep is
idempotent on every state of the conversations table — running it twice
leaves the table exactly as running it once: records past retention are
already deleted, and clearing an already-null encrypted-content field is
a no-op. -/
theorem claim_C9 (now : ℚ) (s : List ConversationRecord) :
    cleanup_old_data now (cleanup_old_data now s) = cleanup_old_data now s := by
  unfold cleanup_old_data
  rw [filter_map_swap, List.filter_filter]
  simp only [Bool.and_self]
  rw [List.map_map]
  exact List.map_congr_left (fun r _ => record_anonymized_idem now r)

end MindCare
